import Mathlib

/-!
Verification development for the Skin-Diagnosis-System API (the `app` package).

The Python source is shallowly embedded: each model-layer function becomes a
Lean function over explicit state (association lists standing for MongoDB
collections), external collaborators (GridFS blob store, the remote ML
classifier, id/timestamp generators, write acknowledgement) are supplied as
oracle parameters, and every raised `HTTPException` becomes the `error` branch
of an `Except` value carrying the HTTP status code and detail string.
-/

namespace SkinApi

/-- A raised `fastapi.HTTPException`: status code and detail message. -/
structure HTTPError where
  statusCode : Nat
  detail : String
  deriving Repr, DecidableEq

instance {ε α : Type} [DecidableEq ε] [DecidableEq α] : DecidableEq (Except ε α) :=
  fun a b =>
  match a, b with
  | .ok x, .ok y => if h : x = y then .isTrue (by simp [h]) else .isFalse (by simp [h])
  | .ok _, .error _ => .isFalse (by simp)
  | .error _, .ok _ => .isFalse (by simp)
  | .error e, .error f => if h : e = f then .isTrue (by simp [h]) else .isFalse (by simp [h])

/-! ## Token Service (`app/utils/authentication.py`)

`create_access_token` copies the claims dict `data = \x7bid, email\x7d`, adds an
`exp` entry at `now + ACCESS_TOKEN_EXPIRE_MINUTES` minutes, and signs the
whole payload with the process-wide secret key.  The `jwt` library is an
external collaborator; it is idealized: a signature is valid exactly when it
was produced over this payload with this key (signing is injective), which is
the standard symbolic model of a MAC. -/

/-- The payload embedded in a token: the two identity claims plus the expiry
instant (seconds since the epoch) that `create_access_token` adds. -/
structure TokenPayload where
  id : String
  email : String
  exp : Int
  deriving Repr, DecidableEq

/-- A signature is idealized as the signed payload paired with the signing
key; verification compares the stored signature with the recomputation. -/
def mkSignature (key : String) (p : TokenPayload) : TokenPayload × String :=
  (p, key)

/-- A token string as `verify_token` sees it: either a structurally valid JWT
(payload plus signature segment, possibly tampered) or a string that does not
parse as a JWT at all. -/
inductive Token where
  | jwt (payload : TokenPayload) (sig : TokenPayload × String)
  | garbage (raw : String)
  deriving Repr, DecidableEq

/-- Errors of the idealized `jwt.decode`: `expiredSignature` models
`jwt.ExpiredSignatureError`, `invalidToken` models `jwt.InvalidTokenError`
(which also covers `InvalidSignatureError` and parse failures). -/
inductive JwtError where
  | expiredSignature
  | invalidToken
  deriving Repr, DecidableEq

/-- Idealized `jwt.decode(token, SECRET_KEY, algorithms=[ALGORITHM])`: a
non-JWT string or a signature mismatch is `invalidToken`; with a valid
signature, an `exp` in the past (pyjwt: `exp < now`) is `expiredSignature`;
otherwise the embedded payload is returned unmodified. -/
def jwtDecode (key : String) (now : Int) : Token → Except JwtError TokenPayload
  | .garbage _ => .error .invalidToken
  | .jwt p s =>
    if s ≠ mkSignature key p then .error .invalidToken
    else if p.exp < now then .error .expiredSignature
    else .ok p

/-- `create_access_token(data)` with `data = \x7bid, email\x7d`: payload is the
claims plus `exp = now + ACCESS_TOKEN_EXPIRE_MINUTES * 60`, signed with the
secret key.  `ttlSeconds` stands for the configured TTL in seconds. -/
def create_access_token (key : String) (ttlSeconds : Int) (now : Int)
    (id email : String) : Token :=
  let payload : TokenPayload := ⟨id, email, now + ttlSeconds⟩
  .jwt payload (mkSignature key payload)

/-- `verify_token(token)`: translates the `jwt.decode` outcome into the
function's `HTTPException`s (401 "Token has expired" / 401 "Invalid token")
or returns the decoded payload. -/
def verify_token (key : String) (now : Int) (token : Token) :
    Except HTTPError TokenPayload :=
  match jwtDecode key now token with
  | .ok payload => .ok payload
  | .error .expiredSignature => .error ⟨401, "Token has expired"⟩
  | .error .invalidToken => .error ⟨401, "Invalid token"⟩

/-! ## Requests and the Auth Gate (`app/middleware/authentication.py`) -/

/-- The `Authorization` header value, by the shape the code distinguishes:
either `Bearer <token>` (so `startswith("Bearer ")` holds and
`split(" ")[1]` yields the token) or a value without the `Bearer ` marker. -/
inductive AuthHeaderVal where
  | bearerTok (t : Token)
  | notBearer (raw : String)
  deriving Repr, DecidableEq

/-- An inbound HTTP request as the middleware inspects it: its path and its
optional `Authorization` header. -/
structure Request where
  path : String
  authHeader : Option AuthHeaderVal
  deriving Repr, DecidableEq

/-- The fixed public allow-list of `AuthMiddleware.dispatch`. -/
def public_routes : List String :=
  ["/users/register-doctor", "/users/login", "/docs", "/openapi.json", "/redoc"]

/-- Outcome of the middleware: either the request is forwarded unchanged to
the next handler, or a JSON response with a status code and detail is
returned instead. -/
inductive GateResult where
  | forwarded (req : Request)
  | response (statusCode : Nat) (detail : String)
  deriving Repr, DecidableEq

/-- `AuthMiddleware.dispatch`: test-mode bypass, public allow-list, then the
`Bearer` header check (401 with the fixed message on absence or a malformed
value), then `verify_token` (its `HTTPException` is caught and turned into a
JSON response with the same status and detail), else forward. -/
def dispatch (testing : Bool) (key : String) (now : Int) (req : Request) :
    GateResult :=
  if testing then .forwarded req
  else if public_routes.contains req.path then .forwarded req
  else
    match req.authHeader with
    | none => .response 401 "Missing or invalid Authorization header"
    | some (.notBearer _) => .response 401 "Missing or invalid Authorization header"
    | some (.bearerTok t) =>
      match verify_token key now t with
      | .error e => .response e.statusCode e.detail
      | .ok _ => .forwarded req

/-! ## Documents and collections

MongoDB documents are embedded as association lists from field name to an
(opaque, string-valued) field value; a collection is a list of documents.
`find_one(filter, projection)` becomes `List.find?` followed by field
filtering for an exclusion projection. -/

/-- A MongoDB document: field names mapped to opaque string values. -/
abbrev Doc : Type := List (String × String)

/-- Value of a field in a document (`doc.get(k)` / `doc[k]`): the first
binding wins, as in a Python dict built left to right. -/
def Doc.getField (d : Doc) (k : String) : Option String :=
  (List.find? (fun kv => kv.1 = k) d).map Prod.snd

/-- `dict.pop(k, None)`: remove the field if present. -/
def Doc.pop (d : Doc) (k : String) : Doc :=
  List.filter (fun kv => kv.1 ≠ k) d

/-- The field names of a document. -/
def Doc.keys (d : Doc) : List String :=
  List.map Prod.fst d

/-- A MongoDB exclusion projection such as `\x7b"_id": 0, "password": 0\x7d`:
drop exactly the listed fields. -/
def projectExclude (excluded : List String) (d : Doc) : Doc :=
  List.filter (fun kv => ¬ excluded.contains kv.1) d

/-! ## Doctor model (`app/models/doctor.py`) -/

/-- The `doctor_data` dict built by `create_doctor` before insertion, in the
order of the source: generated id, lowercased email, title-cased name,
bcrypt password hash, creation timestamp.  Lowercasing/hashing happen before
this record is built, so the fields are taken as already processed. -/
def doctor_record (did email name pwHash ts : String) : Doc :=
  [("doctor_id", did), ("email", email), ("name", name),
   ("password", pwHash), ("created_at", ts)]

/-- The success body of `create_doctor`: `insert_one` adds the store-internal
`_id` field to `doctor_data`, then the code pops `password` and `_id` and
adds the allocated `api_key` before responding with 201. -/
def create_doctor_response (did email name pwHash ts oid apiKey : String) : Doc :=
  ((doctor_record did email name pwHash ts ++ [("_id", oid)]).pop "password").pop "_id"
    ++ [("api_key", apiKey)]

/-- `get_doctor_by_id`: `find_one(\x7b"doctor_id": id\x7d, \x7b"_id": 0, "password": 0\x7d)`;
`none` models the `None` returned when no document matches. -/
def get_doctor_by_id (doctors : List Doc) (did : String) : Option Doc :=
  (doctors.find? (fun d => d.getField "doctor_id" = some did)).map
    (projectExclude ["_id", "password"])

/-- The list returned by `get_all_doctors`:
`find(\x7b\x7d, \x7b"_id": 0, "password": 0\x7d)` over the whole collection. -/
def get_all_doctors (doctors : List Doc) : List Doc :=
  doctors.map (projectExclude ["_id", "password"])

/-- `get_current_doctor(request)`: re-checks the `Authorization: Bearer`
header (401 with the fixed message otherwise), verifies the token
(`verify_token` `HTTPException`s are re-raised unchanged), then requires the
doctor referenced by the payload's `id` claim to exist in the collection;
`if not doctor` is Python-falsy for both a missing document and an empty
projected document, raising 401 "Doctor not found". -/
def get_current_doctor (doctors : List Doc) (key : String) (now : Int)
    (req : Request) : Except HTTPError Doc :=
  match req.authHeader with
  | none => .error ⟨401, "Missing or invalid Authorization header"⟩
  | some (.notBearer _) => .error ⟨401, "Missing or invalid Authorization header"⟩
  | some (.bearerTok t) =>
    match verify_token key now t with
    | .error e => .error e
    | .ok payload =>
      match get_doctor_by_id doctors payload.id with
      | none => .error ⟨401, "Doctor not found"⟩
      | some doctor =>
        if doctor = ([] : Doc) then .error ⟨401, "Doctor not found"⟩
        else .ok doctor

/-! ## API-key model (`app/models/api_key.py`)

The API-key collection is embedded as an association list from `doctor_id`
to the stored `api_key` value, mirroring the
`find_one(\x7b"doctor_id": ...\x7d, \x7b"_id": 0, "api_key": 1\x7d)` projection used by
both functions. -/

/-- The key store: one `(doctor_id, api_key)` pair per stored record. -/
abbrev KeyStore : Type := List (String × String)

/-- `find_one(\x7b"doctor_id": d\x7d)` over the key store. -/
def findKey (keys : KeyStore) (d : String) : Option String :=
  (List.find? (fun kv => kv.1 = d) keys).map Prod.snd

/-- `get_api_key(doctor_id)`.  The empty-id guard (`if not doctor_id`)
raises 400 outside the `try` block.  Inside the `try`, a missing record
raises `HTTPException(404, "API key not found.")`, but the function's only
handler is `except Exception`, which catches that `HTTPException` as well
and re-raises `HTTPException(500, "Error retrieving API key.")`; the 404
therefore never escapes.  A found record's key is returned unchanged. -/
def get_api_key (keys : KeyStore) (doctorId : String) : Except HTTPError String :=
  if doctorId = "" then .error ⟨400, "Doctor ID is missing."⟩
  else
    match findKey keys doctorId with
    | none => .error ⟨500, "Error retrieving API key."⟩
    | some k => .ok k

/-- `allocate_api_key(doctor_id)`: empty-id guard (400), then return the
existing key unchanged when one is stored; otherwise insert a record with a
freshly generated key (`gen`, standing for `secrets.token_hex(32)`) and
return it.  An unacknowledged insert raises 500 inside the `try`, which the
blanket `except Exception` re-raises as 500 "API key allocation error.".
The insert itself is embedded as appending the new record. -/
def allocate_api_key (keys : KeyStore) (gen : String) (ack : Bool)
    (doctorId : String) : Except HTTPError String × KeyStore :=
  if doctorId = "" then (.error ⟨400, "Doctor ID is missing."⟩, keys)
  else
    match findKey keys doctorId with
    | some k => (.ok k, keys)
    | none =>
      let keys2 := keys ++ [(doctorId, gen)]
      if ack then (.ok gen, keys2)
      else (.error ⟨500, "API key allocation error."⟩, keys2)

/-! ## Patient model (`app/models/patient.py`) -/

/-- The patient store as `get_patient_id` projects it:
`(patient_number, patient_id)` pairs. -/
abbrev PatientStore : Type := List (Int × String)

/-- `find_one(\x7b"patient_number": n\x7d, \x7b"patient_id": 1, "_id": 0\x7d)`. -/
def findPatient (patients : PatientStore) (n : Int) : Option String :=
  (List.find? (fun kv => kv.1 = n) patients).map Prod.snd

/-- `get_patient_id(patient_number)`: a missing patient raises
`HTTPException(404, "Patient not found.")` inside the `try`, but the
function's only handler is `except Exception`, which catches it and
re-raises `HTTPException(500, "Error retrieving patient ID.")`; a found
record's `patient_id` is returned. -/
def get_patient_id (patients : PatientStore) (n : Int) : Except HTTPError String :=
  match findPatient patients n with
  | none => .error ⟨500, "Error retrieving patient ID."⟩
  | some pid => .ok pid

/-! ## Case model (`app/models/case.py`)

External collaborators of `create_case` are supplied as oracle parameters:
the GridFS `put` result, the ML endpoint response, the generated case id,
the timestamp, and the write acknowledgement of the case insert.  Raw image
bytes are embedded as an opaque `String`. -/

/-- An uploaded file as the route hands it to the model layer: the
client-supplied filename and the raw bytes `await file.read()` yields. -/
structure FileUpload where
  filename : String
  bytes : String
  deriving Repr, DecidableEq

/-- The `UploadImage` pydantic model of `app/schema/images.py`. -/
structure UploadImage where
  image_bytes : String
  image_name : String
  deriving Repr, DecidableEq

/-- A persisted case document, with the fields `create_case` writes.  The
`notes` field is the literal value the code stores (the string `""`). -/
structure CaseRec where
  case_id : String
  doctor_id : String
  patient_id : String
  diagnosis : String
  notes : String
  image_id : String
  created_at : String
  deriving Repr, DecidableEq

/-- The external collaborators one `create_case` run consults. -/
structure Oracles where
  /-- `gridfs.GridFS.put`: `some id` on success, `none` on a backend error. -/
  fsPut : Option String
  /-- HTTP status code of the ML endpoint response. -/
  mlStatus : Nat
  /-- Body of the ML endpoint response (its JSON payload, opaque). -/
  mlBody : String
  /-- `str(uuid.uuid4())` for the new case id. -/
  newCaseId : String
  /-- `datetime.now(timezone.utc)` serialized, and the timestamp part of the
  generated image filename. -/
  nowTs : String
  /-- `uuid.uuid4().hex[:8]` used inside the generated image filename. -/
  uid : String
  /-- `insert_one(...).acknowledged` for the case insert. -/
  ack : Bool
  deriving Repr, DecidableEq

/-- The literal allow-list tuple in `create_case`. -/
def allowed_extensions : List String :=
  [".png", ".jpg", ".jpeg", ".gif", ".bmp"]

/-- Python `str.lower`, restricted to its ASCII behaviour on the character
list of the string (filenames in the claims are ASCII). -/
def strToLower (s : String) : String := String.mk (s.data.map Char.toLower)

/-- Python `str.endswith` over the character lists. -/
def strEndsWith (s suffix : String) : Bool := List.isSuffixOf suffix.data s.data

/-- `file.filename.lower().endswith(allowed_extensions)`: a tuple argument
to `endswith` succeeds when any listed suffix matches. -/
def allowedFile (filename : String) : Bool :=
  allowed_extensions.any (fun ext => strEndsWith (strToLower filename) ext)

/-- `generate_unique_filename(extension)`:
`"image_<timestamp>_<uuid8>.<extension>"`.  `create_case` passes the whole
original filename as the `extension` argument. -/
def generate_unique_filename (ts uid extension : String) : String :=
  "image_" ++ ts ++ "_" ++ uid ++ "." ++ extension

/-- `upload_case_image(image_data)`: empty bytes or an empty filename raise
`HTTPException(400, ...)` inside the `try`, but the only handler is
`except Exception`, which converts any failure (including that 400 and a
GridFS backend error) into a 500 whose detail embeds the original message;
on success the stringified GridFS id is returned. -/
def upload_case_image (fsPut : Option String) (img : UploadImage) :
    Except HTTPError String :=
  if img.image_bytes = "" ∨ img.image_name = "" then
    .error ⟨500, "An error occurred while uploading the image: Invalid input"⟩
  else
    match fsPut with
    | none => .error ⟨500, "An error occurred while uploading the image: backend error"⟩
    | some imageId => .ok imageId

/-- `get_diagnosis(file, api_key)`: POSTs the bytes to the ML endpoint with
the access key in the `access_token` header; a non-200 response raises an
`HTTPException` carrying the remote status and body (re-raised unchanged by
the function's `except HTTPException` clause); a 200 response's JSON payload
is returned. -/
def get_diagnosis (o : Oracles) : Except HTTPError String :=
  if o.mlStatus ≠ 200 then
    .error ⟨o.mlStatus, "ML API error: " ++ o.mlBody⟩
  else .ok o.mlBody

/-- The persistent state `create_case` touches. -/
structure Store where
  patients : PatientStore
  apiKeys : KeyStore
  cases : List CaseRec
  deriving Repr, DecidableEq

/-- Model-level `create_case(patient_number, file, current_doctor)` of
`app/models/case.py` (three parameters; it has no notes parameter).  The
steps, in source order inside the `try` (any raised `HTTPException` is
re-raised unchanged by the final `except HTTPException` clause):
1. extension allow-list check, 400 on failure;
2. read bytes and build the unique filename;
3. construct the `UploadImage` pydantic model, whose two fields both carry
   `min_length=1` (`app/schema/images.py`): empty bytes or an empty name
   raise a `pydantic.ValidationError`, which is not an `HTTPException` and
   so falls through to the final blanket `except Exception` clause,
   surfacing as a 500 whose detail embeds the validation message;
4. `get_api_key(current_doctor.get("doctor_id"))` — before any patient
   lookup; `doctorId = ""` embeds a missing/falsy `doctor_id`;
5. the `if not doctor_id` guard (400 "Invalid doctor credentials");
6. `get_patient_id(patient_number)` and the `if not patient_id` guard (404);
7. `upload_case_image` to GridFS;
8. `get_diagnosis` against the ML endpoint;
9. build `case_data` (with `notes` hardcoded to `""`), `insert_one` it, and
   raise 500 if the write is not acknowledged; otherwise respond 201.
The returned pair is (response outcome, final state of the cases
collection). -/
def create_case (st : Store) (o : Oracles) (patientNumber : Int)
    (file : FileUpload) (doctorId : String) :
    Except HTTPError CaseRec × List CaseRec :=
  if ¬ allowedFile file.filename then
    (.error ⟨400, "Invalid file type. Only image files are allowed."⟩, st.cases)
  else
    let imageBytes := file.bytes
    let uniqueFilename := generate_unique_filename o.nowTs o.uid file.filename
    if imageBytes = "" ∨ uniqueFilename = "" then
      (.error ⟨500,
        "An error occurred while creating the case: UploadImage validation error"⟩,
       st.cases)
    else
    let imageData : UploadImage := ⟨imageBytes, uniqueFilename⟩
    match get_api_key st.apiKeys doctorId with
    | .error e => (.error e, st.cases)
    | .ok _doctorApiKey =>
      if doctorId = "" then
        (.error ⟨400, "Invalid doctor credentials"⟩, st.cases)
      else
        match get_patient_id st.patients patientNumber with
        | .error e => (.error e, st.cases)
        | .ok patientId =>
          if patientId = "" then
            (.error ⟨404, "Patient not found"⟩, st.cases)
          else
            match upload_case_image o.fsPut imageData with
            | .error e => (.error e, st.cases)
            | .ok imageId =>
              match get_diagnosis o with
              | .error e => (.error e, st.cases)
              | .ok diagnosis =>
                let caseData : CaseRec :=
                  ⟨o.newCaseId, doctorId, patientId, diagnosis, "",
                   imageId, o.nowTs⟩
                let cases2 := st.cases ++ [caseData]
                if ¬ o.ack then
                  (.error ⟨500, "Database insert for case not acknowledged"⟩, cases2)
                else
                  (.ok caseData, cases2)

/-- HTTP status of a `create_case` outcome: the model function responds 201
on success, otherwise the status of the raised `HTTPException`. -/
def caseStatus (r : Except HTTPError CaseRec) : Nat :=
  match r with
  | .ok _ => 201
  | .error e => e.statusCode

/-- Number of parameters of model-level `create_case` in
`app/models/case.py`: `(patient_number, file, current_doctor)`. -/
def create_case_param_count : Nat := 3

/-- Number of positional arguments the route handler `create_new_case` in
`app/routers/cases.py` supplies:
`create_case(patient_number, case_notes, file, current_doctor)`. -/
def create_new_case_arg_count : Nat := 4

/-- The route handler `POST /cases/new_case` (`create_new_case` in
`app/routers/cases.py`).  Its body is the single call
`create_case(patient_number, case_notes, file, current_doctor)`.  Python
binds positional arguments by count: when the supplied argument count
matches the callee's parameter count the call proceeds (the guard embeds
that calling convention), and otherwise the call raises `TypeError` before
the callee's `try` block is entered, which the framework surfaces as an
HTTP 500 internal server error. -/
def create_new_case (st : Store) (o : Oracles) (patientNumber : Int)
    (caseNotes : List String) (file : FileUpload) (doctorId : String) :
    Except HTTPError CaseRec × List CaseRec :=
  if create_new_case_arg_count = create_case_param_count then
    create_case st o patientNumber file doctorId
  else
    (.error ⟨500, "Internal Server Error"⟩, st.cases)

/-! ## Theorems -/

/-- C7: for every claims map (subject id, subject email), verifying a
freshly issued token at any time up to its embedded expiry succeeds and
returns the embedded claims unmodified (the two identity claims plus the
`exp` entry `create_access_token` added); a token whose embedded expiry lies
in the past fails as Expired (401 "Token has expired"); a token with a
tampered signature segment, and a structurally invalid token, fail as
invalid (401 "Invalid token"). -/
theorem token_roundtrip_and_failure_modes
    (key : String) (ttl now t : Int) (id email : String)
    (p : TokenPayload) (s : TokenPayload × String) (raw : String) :
    (t ≤ now + ttl →
      verify_token key t (create_access_token key ttl now id email) =
        .ok ⟨id, email, now + ttl⟩)
    ∧ (p.exp < t →
      verify_token key t (.jwt p (mkSignature key p)) =
        .error ⟨401, "Token has expired"⟩)
    ∧ (s ≠ mkSignature key p →
      verify_token key t (.jwt p s) = .error ⟨401, "Invalid token"⟩)
    ∧ verify_token key t (.garbage raw) = .error ⟨401, "Invalid token"⟩ := by
  refine ⟨?_, ?_, ?_, ?_⟩
  · intro h
    have hexp : ¬ (now + ttl < t) := by omega
    simp [verify_token, create_access_token, jwtDecode, hexp]
  · intro h
    simp [verify_token, jwtDecode, h]
  · intro h
    simp [verify_token, jwtDecode, h]
  · simp [verify_token, jwtDecode]

/-- Witness for C7 at concrete inputs: a token issued at time 0 with a
30-minute TTL verifies at time 5 to the original claims; the same payload
expired at time 2000; a tampered signature and a garbage string are both
rejected as invalid. -/
theorem token_roundtrip_and_failure_modes_witness :
    verify_token "secret" 5 (create_access_token "secret" 1800 0 "doc-1" "a@b.c") =
      .ok ⟨"doc-1", "a@b.c", 1800⟩
    ∧ verify_token "secret" 2000
        (.jwt ⟨"doc-1", "a@b.c", 1800⟩ (mkSignature "secret" ⟨"doc-1", "a@b.c", 1800⟩)) =
      .error ⟨401, "Token has expired"⟩
    ∧ verify_token "secret" 5 (.jwt ⟨"doc-1", "a@b.c", 1800⟩ (⟨"doc-1", "a@b.c", 1800⟩, "wrong")) =
      .error ⟨401, "Invalid token"⟩
    ∧ verify_token "secret" 5 (.garbage "garbage") = .error ⟨401, "Invalid token"⟩ := by
  obtain ⟨h1, -, h3, h4⟩ :=
    token_roundtrip_and_failure_modes "secret" 1800 0 5 "doc-1" "a@b.c"
      ⟨"doc-1", "a@b.c", 1800⟩ (⟨"doc-1", "a@b.c", 1800⟩, "wrong") "garbage"
  obtain ⟨-, h2, -, -⟩ :=
    token_roundtrip_and_failure_modes "secret" 1800 0 2000 "doc-1" "a@b.c"
      ⟨"doc-1", "a@b.c", 1800⟩ (⟨"doc-1", "a@b.c", 1800⟩, "wrong") "garbage"
  exact ⟨h1 (by omega), h2 (by decide), h3 (by decide), h4⟩

/-- C6: for every request whose path is not on the public allow-list, with
the test-mode bypass off, the Auth Gate responds 401 with the fixed message
"Missing or invalid Authorization header" when the Authorization header is
absent or does not carry the `Bearer ` marker, responds 401 with the
token-specific detail when `verify_token` fails, and forwards the request
unchanged when the token verifies. -/
theorem auth_gate_behavior (key : String) (now : Int) (req : Request)
    (hpub : public_routes.contains req.path = false) :
    (req.authHeader = none →
      dispatch false key now req =
        .response 401 "Missing or invalid Authorization header")
    ∧ (∀ raw, req.authHeader = some (.notBearer raw) →
      dispatch false key now req =
        .response 401 "Missing or invalid Authorization header")
    ∧ (∀ tk e, req.authHeader = some (.bearerTok tk) →
      verify_token key now tk = .error e →
      dispatch false key now req = .response e.statusCode e.detail)
    ∧ (∀ tk p, req.authHeader = some (.bearerTok tk) →
      verify_token key now tk = .ok p →
      dispatch false key now req = .forwarded req) := by
  have hp : req.path ∉ public_routes := by simpa using hpub
  refine ⟨?_, ?_, ?_, ?_⟩
  · intro h
    simp [dispatch, hp, h]
  · intro raw h
    simp [dispatch, hp, h]
  · intro tk e h hv
    simp [dispatch, hp, h, hv]
  · intro tk p h hv
    simp [dispatch, hp, h, hv]

/-- Witness for C6 at concrete inputs: on the protected path
`/cases/get_cases`, a request with no header gets the fixed 401 message, a
request with a garbage bearer token gets 401 "Invalid token", and a request
with a freshly issued token is forwarded unchanged. -/
theorem auth_gate_behavior_witness :
    dispatch false "secret" 5 ⟨"/cases/get_cases", none⟩ =
      .response 401 "Missing or invalid Authorization header"
    ∧ dispatch false "secret" 5
        ⟨"/cases/get_cases", some (.bearerTok (.garbage "zzz"))⟩ =
      .response 401 "Invalid token"
    ∧ dispatch false "secret" 5
        ⟨"/cases/get_cases",
         some (.bearerTok (create_access_token "secret" 1800 0 "doc-1" "a@b.c"))⟩ =
      .forwarded ⟨"/cases/get_cases",
         some (.bearerTok (create_access_token "secret" 1800 0 "doc-1" "a@b.c"))⟩ := by
  refine ⟨?_, ?_, ?_⟩
  · exact (auth_gate_behavior "secret" 5 ⟨"/cases/get_cases", none⟩ (by decide)).1 rfl
  · exact ((auth_gate_behavior "secret" 5
      ⟨"/cases/get_cases", some (.bearerTok (.garbage "zzz"))⟩ (by decide)).2.2.1
      (.garbage "zzz") ⟨401, "Invalid token"⟩ rfl (by decide))
  · exact ((auth_gate_behavior "secret" 5
      ⟨"/cases/get_cases",
       some (.bearerTok (create_access_token "secret" 1800 0 "doc-1" "a@b.c"))⟩
      (by decide)).2.2.2
      (create_access_token "secret" 1800 0 "doc-1" "a@b.c")
      ⟨"doc-1", "a@b.c", 1800⟩ rfl (by decide))

/-- Helper: a field listed in an exclusion projection never appears among
the keys of the projected document. -/
theorem not_mem_keys_projectExclude (excluded : List String) (doc : Doc)
    (k : String) (hk : k ∈ excluded) : k ∉ (projectExclude excluded doc).keys := by
  intro hmem
  unfold Doc.keys projectExclude at hmem
  obtain ⟨kv, hkv, hfst⟩ := List.mem_map.mp hmem
  obtain ⟨-, hpred⟩ := List.mem_filter.mp hkv
  rw [hfst] at hpred
  simp at hpred
  exact hpred hk

/-- C9: on a protected route, `get_current_doctor` succeeds only when the
request carries a `Bearer` token that verifies and whose `id` claim matches
an existing (and non-empty after projection) doctor document; and a token
that verifies but whose `id` claim matches no doctor document is rejected
with 401 "Doctor not found". -/
theorem get_current_doctor_requires_db_doctor
    (doctors : List Doc) (key : String) (now : Int) (req : Request) :
    (∀ d, get_current_doctor doctors key now req = .ok d →
      ∃ tk payload, req.authHeader = some (.bearerTok tk) ∧
        verify_token key now tk = .ok payload ∧
        get_doctor_by_id doctors payload.id = some d ∧ d ≠ ([] : Doc))
    ∧ (∀ tk payload, req.authHeader = some (.bearerTok tk) →
      verify_token key now tk = .ok payload →
      get_doctor_by_id doctors payload.id = none →
      get_current_doctor doctors key now req = .error ⟨401, "Doctor not found"⟩) := by
  constructor
  · intro d hd
    cases hreq : req.authHeader with
    | none => simp [get_current_doctor, hreq] at hd
    | some v =>
      cases v with
      | notBearer raw => simp [get_current_doctor, hreq] at hd
      | bearerTok tk =>
        simp only [get_current_doctor, hreq] at hd
        cases hv : verify_token key now tk with
        | error e => simp [hv] at hd
        | ok payload =>
          simp only [hv] at hd
          cases hl : get_doctor_by_id doctors payload.id with
          | none => simp [hl] at hd
          | some doc =>
            simp only [hl] at hd
            by_cases hdoc : doc = ([] : Doc)
            · simp [hdoc] at hd
            · rw [if_neg hdoc] at hd
              simp only [Except.ok.injEq] at hd
              subst hd
              exact ⟨tk, payload, rfl, hv, hl, hdoc⟩
  · intro tk payload hreq hv hl
    simp [get_current_doctor, hreq, hv, hl]

/-- Witness for C9 at concrete inputs: a freshly issued, correctly signed,
unexpired token carrying doctor id "ghost" against an empty doctor
collection is rejected with 401 "Doctor not found". -/
theorem get_current_doctor_requires_db_doctor_witness :
    get_current_doctor [] "secret" 5
      ⟨"/cases/get_cases",
       some (.bearerTok (create_access_token "secret" 1800 0 "ghost" "g@x.y"))⟩ =
      .error ⟨401, "Doctor not found"⟩ := by
  exact (get_current_doctor_requires_db_doctor [] "secret" 5
      ⟨"/cases/get_cases",
       some (.bearerTok (create_access_token "secret" 1800 0 "ghost" "g@x.y"))⟩).2
    (create_access_token "secret" 1800 0 "ghost" "g@x.y")
    ⟨"ghost", "g@x.y", 1800⟩ rfl (by decide) rfl

/-- C10: the stored password hash never appears in a public doctor-returning
response: the registration response drops the `password` field, and both
`get_doctor_by_id` and `get_all_doctors` exclude it through their database
projections, for every doctor record. -/
theorem doctor_responses_exclude_password
    (did email name pwHash ts oid apiKey lookupId : String) (doctors : List Doc) :
    "password" ∉ (create_doctor_response did email name pwHash ts oid apiKey).keys
    ∧ (∀ d, get_doctor_by_id doctors lookupId = some d → "password" ∉ d.keys)
    ∧ (∀ d ∈ get_all_doctors doctors, "password" ∉ d.keys) := by
  refine ⟨?_, ?_, ?_⟩
  · have h : (create_doctor_response did email name pwHash ts oid apiKey).keys
        = ["doctor_id", "email", "name", "created_at", "api_key"] := rfl
    rw [h]; decide
  · intro d hd
    unfold get_doctor_by_id at hd
    obtain ⟨doc, -, hproj⟩ := Option.map_eq_some'.mp hd
    rw [← hproj]
    exact not_mem_keys_projectExclude _ doc _ (by simp)
  · intro d hd
    obtain ⟨doc, -, hproj⟩ := List.mem_map.mp hd
    rw [← hproj]
    exact not_mem_keys_projectExclude _ doc _ (by simp)

/-- Witness for C10 at concrete inputs: the registration response for a
concrete doctor has no `password` key, and the projected lookup result for a
stored record that does contain a password hash has no `password` key. -/
theorem doctor_responses_exclude_password_witness :
    "password" ∉ (create_doctor_response "d-1" "a@b.c" "Dr A" "hash0" "t0" "oid0" "key0").keys
    ∧ "password" ∉ Doc.keys [("doctor_id", "d-1"), ("email", "a@b.c")] := by
  constructor
  · exact (doctor_responses_exclude_password "d-1" "a@b.c" "Dr A" "hash0" "t0" "oid0"
      "key0" "d-1" []).1
  · exact (doctor_responses_exclude_password "d-1" "a@b.c" "Dr A" "hash0" "t0" "oid0"
      "key0" "d-1"
      [[("doctor_id", "d-1"), ("email", "a@b.c"), ("password", "hash0")]]).2.1
      [("doctor_id", "d-1"), ("email", "a@b.c")] (by decide)

/-- Helper: inserting a key record for a doctor with no stored key makes the
lookup find exactly that record. -/
theorem findKey_append_self (keys : KeyStore) (d g : String)
    (h : findKey keys d = none) : findKey (keys ++ [(d, g)]) d = some g := by
  induction keys with
  | nil => simp [findKey]
  | cons kv tl ih =>
    unfold findKey at *
    rcases kv with ⟨k1, v1⟩
    by_cases hk : k1 = d
    · simp [List.find?, hk] at h
    · simp only [List.cons_append, List.find?] at *
      rw [show (decide (k1 = d)) = false by simpa using hk] at *
      exact ih h

/-- C8: `allocate_api_key` is idempotent: when a key is already stored for
the doctor it is returned unchanged and the store is untouched, and two
consecutive allocations for the same doctor id (the first acknowledged)
return the same key both times. -/
theorem allocate_api_key_idempotent
    (keys : KeyStore) (d k gen gen1 gen2 : String) (ack ack2 : Bool)
    (hd : d ≠ "") :
    (findKey keys d = some k → allocate_api_key keys gen ack d = (.ok k, keys))
    ∧ (∀ r1 ks1 r2 ks2, allocate_api_key keys gen1 true d = (r1, ks1) →
      allocate_api_key ks1 gen2 ack2 d = (r2, ks2) →
      ∃ key0, r1 = .ok key0 ∧ r2 = .ok key0) := by
  constructor
  · intro hfind
    simp [allocate_api_key, hd, hfind]
  · intro r1 ks1 r2 ks2 h1 h2
    cases hfind : findKey keys d with
    | some k0 =>
      rw [show allocate_api_key keys gen1 true d = (.ok k0, keys) by
            simp [allocate_api_key, hd, hfind]] at h1
      obtain ⟨hr1, hks1⟩ := Prod.mk.injEq .. ▸ h1
      subst hks1
      rw [show allocate_api_key keys gen2 ack2 d = (.ok k0, keys) by
            simp [allocate_api_key, hd, hfind]] at h2
      obtain ⟨hr2, -⟩ := Prod.mk.injEq .. ▸ h2
      exact ⟨k0, hr1.symm, hr2.symm⟩
    | none =>
      rw [show allocate_api_key keys gen1 true d = (.ok gen1, keys ++ [(d, gen1)]) by
            simp [allocate_api_key, hd, hfind]] at h1
      obtain ⟨hr1, hks1⟩ := Prod.mk.injEq .. ▸ h1
      subst hks1
      have hfind2 : findKey (keys ++ [(d, gen1)]) d = some gen1 :=
        findKey_append_self keys d gen1 hfind
      rw [show allocate_api_key (keys ++ [(d, gen1)]) gen2 ack2 d =
            (.ok gen1, keys ++ [(d, gen1)]) by
            simp [allocate_api_key, hd, hfind2]] at h2
      obtain ⟨hr2, -⟩ := Prod.mk.injEq .. ▸ h2
      exact ⟨gen1, hr1.symm, hr2.symm⟩

/-- Witness for C8 at concrete inputs: allocating for doctor "d-1" on an
empty store and then allocating again (with a different generated candidate
key) returns the same key both times. -/
theorem allocate_api_key_idempotent_witness :
    ∃ key0, (allocate_api_key [] "g1" true "d-1").1 = .ok key0 ∧
      (allocate_api_key (allocate_api_key [] "g1" true "d-1").2 "g2" true "d-1").1 =
        .ok key0 := by
  exact (allocate_api_key_idempotent [] "d-1" "" "" "g1" "g2" true true
      (by decide)).2
    (allocate_api_key [] "g1" true "d-1").1
    (allocate_api_key [] "g1" true "d-1").2
    (allocate_api_key (allocate_api_key [] "g1" true "d-1").2 "g2" true "d-1").1
    (allocate_api_key (allocate_api_key [] "g1" true "d-1").2 "g2" true "d-1").2
    rfl rfl

/-! Helper lemmas characterizing each abort point of `create_case`.  The
`doctorId = ""` guard after the key lookup can never fire: a successful
`get_api_key` already implies a non-empty doctor id. -/

theorem get_api_key_ok_elim (keys : KeyStore) (d k : String)
    (h : get_api_key keys d = .ok k) : d ≠ "" ∧ findKey keys d = some k := by
  unfold get_api_key at h
  by_cases hd : d = ""
  · rw [if_pos hd] at h; simp at h
  · rw [if_neg hd] at h
    cases hfind : findKey keys d with
    | none => rw [hfind] at h; simp at h
    | some k0 =>
      rw [hfind] at h
      simp only [Except.ok.injEq] at h
      exact ⟨hd, congrArg some h⟩

/-- The filename generated by `generate_unique_filename` is never empty
(it always starts with the literal marker `image_`), so the `min_length`
validation of `UploadImage.image_name` can only be failed by a caller that
bypasses the generator — which `create_case` never does. -/
theorem generate_unique_filename_ne_empty (ts uid extension : String) :
    generate_unique_filename ts uid extension ≠ "" := by
  unfold generate_unique_filename
  intro h
  have hdata := congrArg String.data h
  simp [String.data_append] at hdata

theorem create_case_badfile (st : Store) (o : Oracles) (pn : Int)
    (file : FileUpload) (d : String) (hf : allowedFile file.filename = false) :
    create_case st o pn file d =
      (.error ⟨400, "Invalid file type. Only image files are allowed."⟩, st.cases) := by
  simp [create_case, hf]

theorem create_case_empty_bytes (st : Store) (o : Oracles) (pn : Int)
    (file : FileUpload) (d : String)
    (hf : allowedFile file.filename = true) (hb : file.bytes = "") :
    create_case st o pn file d =
      (.error ⟨500,
        "An error occurred while creating the case: UploadImage validation error"⟩,
       st.cases) := by
  simp [create_case, hf, hb]

theorem create_case_keyerr (st : Store) (o : Oracles) (pn : Int)
    (file : FileUpload) (d : String) (e : HTTPError)
    (hf : allowedFile file.filename = true) (hb : file.bytes ≠ "")
    (hk : get_api_key st.apiKeys d = .error e) :
    create_case st o pn file d = (.error e, st.cases) := by
  have hname := generate_unique_filename_ne_empty o.nowTs o.uid file.filename
  simp [create_case, hf, hb, hname, hk]

theorem create_case_paterr (st : Store) (o : Oracles) (pn : Int)
    (file : FileUpload) (d k : String) (e : HTTPError)
    (hf : allowedFile file.filename = true) (hb : file.bytes ≠ "")
    (hk : get_api_key st.apiKeys d = .ok k)
    (hp : get_patient_id st.patients pn = .error e) :
    create_case st o pn file d = (.error e, st.cases) := by
  obtain ⟨hd, -⟩ := get_api_key_ok_elim st.apiKeys d k hk
  have hname := generate_unique_filename_ne_empty o.nowTs o.uid file.filename
  simp [create_case, hf, hb, hname, hk, hd, hp]

theorem create_case_pid_empty (st : Store) (o : Oracles) (pn : Int)
    (file : FileUpload) (d k : String)
    (hf : allowedFile file.filename = true) (hb : file.bytes ≠ "")
    (hk : get_api_key st.apiKeys d = .ok k)
    (hp : get_patient_id st.patients pn = .ok "") :
    create_case st o pn file d = (.error ⟨404, "Patient not found"⟩, st.cases) := by
  obtain ⟨hd, -⟩ := get_api_key_ok_elim st.apiKeys d k hk
  have hname := generate_unique_filename_ne_empty o.nowTs o.uid file.filename
  simp [create_case, hf, hb, hname, hk, hd, hp]

theorem create_case_uploaderr (st : Store) (o : Oracles) (pn : Int)
    (file : FileUpload) (d k pid : String) (e : HTTPError)
    (hf : allowedFile file.filename = true) (hb : file.bytes ≠ "")
    (hk : get_api_key st.apiKeys d = .ok k)
    (hp : get_patient_id st.patients pn = .ok pid) (hpid : pid ≠ "")
    (hu : upload_case_image o.fsPut
      ⟨file.bytes, generate_unique_filename o.nowTs o.uid file.filename⟩ = .error e) :
    create_case st o pn file d = (.error e, st.cases) := by
  obtain ⟨hd, -⟩ := get_api_key_ok_elim st.apiKeys d k hk
  have hname := generate_unique_filename_ne_empty o.nowTs o.uid file.filename
  simp [create_case, hf, hb, hname, hk, hd, hp, hpid, hu]

theorem create_case_mlerr (st : Store) (o : Oracles) (pn : Int)
    (file : FileUpload) (d k pid imageId : String) (e : HTTPError)
    (hf : allowedFile file.filename = true) (hb : file.bytes ≠ "")
    (hk : get_api_key st.apiKeys d = .ok k)
    (hp : get_patient_id st.patients pn = .ok pid) (hpid : pid ≠ "")
    (hu : upload_case_image o.fsPut
      ⟨file.bytes, generate_unique_filename o.nowTs o.uid file.filename⟩ = .ok imageId)
    (hm : get_diagnosis o = .error e) :
    create_case st o pn file d = (.error e, st.cases) := by
  obtain ⟨hd, -⟩ := get_api_key_ok_elim st.apiKeys d k hk
  have hname := generate_unique_filename_ne_empty o.nowTs o.uid file.filename
  simp [create_case, hf, hb, hname, hk, hd, hp, hpid, hu, hm]

theorem create_case_success_shape (st : Store) (o : Oracles) (pn : Int)
    (file : FileUpload) (d k pid imageId diag : String)
    (hf : allowedFile file.filename = true) (hb : file.bytes ≠ "")
    (hk : get_api_key st.apiKeys d = .ok k)
    (hp : get_patient_id st.patients pn = .ok pid) (hpid : pid ≠ "")
    (hu : upload_case_image o.fsPut
      ⟨file.bytes, generate_unique_filename o.nowTs o.uid file.filename⟩ = .ok imageId)
    (hm : get_diagnosis o = .ok diag) :
    create_case st o pn file d =
      (if o.ack then
        .ok ⟨o.newCaseId, d, pid, diag, "", imageId, o.nowTs⟩
      else .error ⟨500, "Database insert for case not acknowledged"⟩,
       st.cases ++ [⟨o.newCaseId, d, pid, diag, "", imageId, o.nowTs⟩]) := by
  obtain ⟨hd, -⟩ := get_api_key_ok_elim st.apiKeys d k hk
  have hname := generate_unique_filename_ne_empty o.nowTs o.uid file.filename
  by_cases hack : o.ack
  · simp [create_case, hf, hb, hname, hk, hd, hp, hpid, hu, hm, hack]
  · simp [create_case, hf, hb, hname, hk, hd, hp, hpid, hu, hm, hack]

/-- C5: whenever any pre-insert step of `create_case` fails (upload
validation, key resolution, patient resolution, blob upload, or the
external diagnosis call), the raised error is surfaced and the cases
collection is left unchanged; the collection changes only when every prior
step succeeded; and when every prior step succeeded but the insert is not
acknowledged, the surfaced error is the internal 500 "Database insert for
case not acknowledged". -/
theorem create_case_persists_only_after_all_steps (st : Store) (o : Oracles)
    (pn : Int) (file : FileUpload) (d : String) :
    (∀ e, (create_case st o pn file d).1 = .error e →
      e.detail ≠ "Database insert for case not acknowledged" →
      (create_case st o pn file d).2 = st.cases)
    ∧ ((create_case st o pn file d).2 ≠ st.cases →
      allowedFile file.filename = true
      ∧ (∃ k, get_api_key st.apiKeys d = .ok k)
      ∧ (∃ pid, get_patient_id st.patients pn = .ok pid ∧ pid ≠ "")
      ∧ (∃ i, upload_case_image o.fsPut
          ⟨file.bytes, generate_unique_filename o.nowTs o.uid file.filename⟩ = .ok i)
      ∧ (∃ diag, get_diagnosis o = .ok diag))
    ∧ (o.ack = false → (create_case st o pn file d).2 ≠ st.cases →
      (create_case st o pn file d).1 =
        .error ⟨500, "Database insert for case not acknowledged"⟩) := by
  by_cases hf : allowedFile file.filename
  case neg =>
    have hc := create_case_badfile st o pn file d (by simpa using hf)
    refine ⟨fun e he hne => by rw [hc], fun hne => absurd rfl (hc ▸ hne),
      fun hack hne => absurd rfl (hc ▸ hne)⟩
  case pos =>
    by_cases hb : file.bytes = ""
    case pos =>
      have hc := create_case_empty_bytes st o pn file d hf hb
      exact ⟨fun e he hne => by rw [hc], fun hne => absurd rfl (hc ▸ hne),
        fun hack hne => absurd rfl (hc ▸ hne)⟩
    case neg =>
    cases hk : get_api_key st.apiKeys d with
    | error e0 =>
      have hc := create_case_keyerr st o pn file d e0 hf hb hk
      exact ⟨fun e he hne => by rw [hc], fun hne => absurd rfl (hc ▸ hne),
        fun hack hne => absurd rfl (hc ▸ hne)⟩
    | ok k =>
      cases hp : get_patient_id st.patients pn with
      | error e1 =>
        have hc := create_case_paterr st o pn file d k e1 hf hb hk hp
        exact ⟨fun e he hne => by rw [hc], fun hne => absurd rfl (hc ▸ hne),
          fun hack hne => absurd rfl (hc ▸ hne)⟩
      | ok pid =>
        by_cases hpid : pid = ""
        case pos =>
          subst hpid
          have hc := create_case_pid_empty st o pn file d k hf hb hk hp
          exact ⟨fun e he hne => by rw [hc], fun hne => absurd rfl (hc ▸ hne),
            fun hack hne => absurd rfl (hc ▸ hne)⟩
        case neg =>
          cases hu : upload_case_image o.fsPut
              ⟨file.bytes, generate_unique_filename o.nowTs o.uid file.filename⟩ with
          | error e2 =>
            have hc := create_case_uploaderr st o pn file d k pid e2 hf hb hk hp hpid hu
            exact ⟨fun e he hne => by rw [hc], fun hne => absurd rfl (hc ▸ hne),
              fun hack hne => absurd rfl (hc ▸ hne)⟩
          | ok imageId =>
            cases hm : get_diagnosis o with
            | error e3 =>
              have hc := create_case_mlerr st o pn file d k pid imageId e3 hf hb hk hp
                hpid hu hm
              exact ⟨fun e he hne => by rw [hc], fun hne => absurd rfl (hc ▸ hne),
                fun hack hne => absurd rfl (hc ▸ hne)⟩
            | ok diag =>
              have hc := create_case_success_shape st o pn file d k pid imageId diag
                hf hb hk hp hpid hu hm
              by_cases hack : o.ack
              case pos =>
                rw [if_pos hack] at hc
                refine ⟨fun e he hne => ?_,
                  fun hne => ⟨hf, ⟨k, rfl⟩, ⟨pid, rfl, hpid⟩, ⟨imageId, rfl⟩, ⟨diag, rfl⟩⟩,
                  fun hackf hne => by rw [hackf] at hack; exact absurd hack (by simp)⟩
                rw [hc] at he
                simp at he
              case neg =>
                rw [if_neg hack] at hc
                refine ⟨fun e he hne => ?_,
                  fun hne => ⟨hf, ⟨k, rfl⟩, ⟨pid, rfl, hpid⟩, ⟨imageId, rfl⟩, ⟨diag, rfl⟩⟩,
                  fun hackf hne => by rw [hc]⟩
                rw [hc] at he
                simp only [Except.error.injEq] at he
                exact absurd (congrArg HTTPError.detail he.symm) hne

/-- Witness for C5 at concrete inputs: with a registered patient and an
allocated key but a failing ML endpoint (status 503), the pipeline surfaces
the upstream error and the cases collection stays empty. -/
theorem create_case_persists_only_after_all_steps_witness :
    (create_case ⟨[(42000001, "p-1")], [("d-1", "k-1")], []⟩
      ⟨some "img-1", 503, "boom", "c-1", "t0", "u0", true⟩
      42000001 ⟨"a.jpg", "bytes"⟩ "d-1").2 = [] := by
  exact (create_case_persists_only_after_all_steps
      ⟨[(42000001, "p-1")], [("d-1", "k-1")], []⟩
      ⟨some "img-1", 503, "boom", "c-1", "t0", "u0", true⟩
      42000001 ⟨"a.jpg", "bytes"⟩ "d-1").1
    ⟨503, "ML API error: boom"⟩ (by decide) (by decide)

/-- C1 (code bug exhibited): in the end-to-end scenario of the claim —
patient number 42000001 registered with id "p-1", the calling doctor "d-1"
holding allocated key "k-1", upload "a.jpg", submitted notes ["note one"],
blob store and ML endpoint succeeding, acknowledged insert — the route
handler `POST /cases/new_case` does not return 201: it supplies four
positional arguments to the three-parameter model `create_case`, raising
`TypeError`, surfaced as HTTP 500, and no case is persisted; moreover even
model-level `create_case` invoked directly with the same data succeeds with
the `notes` field hardcoded to `""`, not the submitted case notes. -/
theorem new_case_route_type_error_and_notes_dropped :
    create_new_case ⟨[(42000001, "p-1")], [("d-1", "k-1")], []⟩
      ⟨some "img-1", 200, "diag-payload", "c-1", "t0", "u0", true⟩
      42000001 ["note one"] ⟨"a.jpg", "bytes"⟩ "d-1"
      = (.error ⟨500, "Internal Server Error"⟩, [])
    ∧ (create_case ⟨[(42000001, "p-1")], [("d-1", "k-1")], []⟩
      ⟨some "img-1", 200, "diag-payload", "c-1", "t0", "u0", true⟩
      42000001 ⟨"a.jpg", "bytes"⟩ "d-1").1
      = .ok ⟨"c-1", "d-1", "p-1", "diag-payload", "", "img-1", "t0"⟩ := by
  constructor
  · decide
  · decide

/-- C2 (code bug exhibited): for a doctor id with no stored API key record,
`get_api_key` surfaces HTTP 500 "Error retrieving API key." — not the 404
its own docstring promises, because the internally raised 404 is caught by
the blanket exception handler — and a case-creation request by such a
doctor (here with a registered patient and an otherwise valid upload)
surfaces that same 500 rather than a 403 or 404. -/
theorem missing_api_key_surfaces_internal_error :
    get_api_key [] "d-1" = .error ⟨500, "Error retrieving API key."⟩
    ∧ (create_case ⟨[(42000001, "p-1")], [], []⟩
      ⟨some "img-1", 200, "diag-payload", "c-1", "t0", "u0", true⟩
      42000001 ⟨"a.jpg", "bytes"⟩ "d-1").1
      = .error ⟨500, "Error retrieving API key."⟩ := by
  constructor
  · decide
  · decide

/-- C3 counterexample: with a fully valid doctor and patient, the upload
"malware.exe" is rejected with status 400 — not the 415 the claim states —
and the code's allow-list also accepts "a.gif", which is outside the
claimed png/jpg/jpeg list. -/
theorem extension_rejection_not_415_counterexample :
    caseStatus (create_case ⟨[(42000001, "p-1")], [("d-1", "k-1")], []⟩
      ⟨some "img-1", 200, "diag-payload", "c-1", "t0", "u0", true⟩
      42000001 ⟨"malware.exe", "bytes"⟩ "d-1").1 = 400
    ∧ (400 : Nat) ≠ 415
    ∧ allowedFile "a.gif" = true := by
  refine ⟨by decide, by decide, by decide⟩

/-- C3 as amended: `create_case` accepts an upload only if its lowercased
filename ends with one of the fixed allow-list
png/jpg/jpeg/gif/bmp; for every other filename it rejects with
400 Bad Request "Invalid file type. Only image files are allowed."
regardless of doctor or patient validity (the store is arbitrary), leaving
the cases collection unchanged. -/
theorem invalid_extension_rejected_400 (st : Store) (o : Oracles) (pn : Int)
    (file : FileUpload) (d : String) (hf : allowedFile file.filename = false) :
    create_case st o pn file d =
      (.error ⟨400, "Invalid file type. Only image files are allowed."⟩, st.cases) :=
  create_case_badfile st o pn file d hf

/-- Witness for the amended C3 at concrete inputs: "malware.exe" is rejected
with 400 even when doctor and patient are valid. -/
theorem invalid_extension_rejected_400_witness :
    create_case ⟨[(42000001, "p-1")], [("d-1", "k-1")], []⟩
      ⟨some "img-1", 200, "diag-payload", "c-1", "t0", "u0", true⟩
      42000001 ⟨"malware.exe", "bytes"⟩ "d-1"
      = (.error ⟨400, "Invalid file type. Only image files are allowed."⟩, []) := by
  exact invalid_extension_rejected_400 ⟨[(42000001, "p-1")], [("d-1", "k-1")], []⟩
    ⟨some "img-1", 200, "diag-payload", "c-1", "t0", "u0", true⟩
    42000001 ⟨"malware.exe", "bytes"⟩ "d-1" (by decide)

/-- C4 counterexample: for an input with both an unknown patient number (the
patient store is empty) and an unallocated access key (the key store is
empty), the surfaced failure is the access-key lookup's 500 "Error
retrieving API key.", not the patient resolution failure the claim says is
surfaced (nor any 404 at all). -/
theorem key_lookup_surfaces_first_counterexample :
    (create_case ⟨[], [], []⟩
      ⟨some "img-1", 200, "diag-payload", "c-1", "t0", "u0", true⟩
      42000001 ⟨"a.jpg", "bytes"⟩ "d-1").1
      = .error ⟨500, "Error retrieving API key."⟩
    ∧ (⟨500, "Error retrieving API key."⟩ : HTTPError)
      ≠ ⟨404, "Patient not found."⟩ := by
  refine ⟨by decide, by decide⟩

/-- C4 as amended: in the `create_case` pipeline the caller's access-key
resolution is performed before patient resolution; for every caller with no
allocated key and a valid upload (an allow-listed extension and non-empty
image bytes, so the `UploadImage` validation at step 3 passes), the
access-key failure — 500 "Error retrieving API key.", the internally raised
404 having been converted by the blanket handler — is the one surfaced,
whatever the patient store contains, so no patient lookup outcome is
consulted. -/
theorem key_resolution_before_patient_resolution
    (patients : PatientStore) (keys : KeyStore) (cases : List CaseRec)
    (o : Oracles) (pn : Int) (file : FileUpload) (d : String)
    (hf : allowedFile file.filename = true) (hb : file.bytes ≠ "")
    (hd : d ≠ "") (hkey : findKey keys d = none) :
    create_case ⟨patients, keys, cases⟩ o pn file d =
      (.error ⟨500, "Error retrieving API key."⟩, cases) := by
  apply create_case_keyerr _ _ _ _ _ _ hf hb
  simp [get_api_key, hd, hkey]

/-- Witness for the amended C4 at concrete inputs: the caller has no key
while the patient number is registered, and the access-key 500 is surfaced
anyway. -/
theorem key_resolution_before_patient_resolution_witness :
    create_case ⟨[(42000001, "p-1")], [], []⟩
      ⟨some "img-1", 200, "diag-payload", "c-1", "t0", "u0", true⟩
      42000001 ⟨"a.jpg", "bytes"⟩ "d-1"
      = (.error ⟨500, "Error retrieving API key."⟩, []) := by
  exact key_resolution_before_patient_resolution [(42000001, "p-1")] [] []
    ⟨some "img-1", 200, "diag-payload", "c-1", "t0", "u0", true⟩
    42000001 ⟨"a.jpg", "bytes"⟩ "d-1" (by decide) (by decide) (by decide) (by decide)

end SkinApi
